import Mathlib

/-!
Verification development for the optuna-distributed repository.

The Python sources under src/ are shallowly embedded below:
pure functions become Lean functions, stateful code becomes explicit
state passing, exceptions become Except / Option results, and the
environment a component interacts with (worker pipes, dask queues,
the sampler, the pruner) is passed in as an explicit trace or oracle
argument.  Each definition carries a comment naming the Python
function it embeds.
-/

namespace OptunaDistributed

/-! ## Python-level basics -/

/-- Python exception classes that appear in the embedded code paths. -/
inductive PyExcType where
  | valueError (msg : String)
  | typeError (msg : String)
  | runtimeError (msg : String)
  | keyError
  | assertionError
  | notImplementedError
  | asyncioTimeoutError
  | timeoutError (msg : String)
  | trialPruned
  | workerInterrupted
  | eofError
  | otherError
deriving DecidableEq, Repr

/-- Attribute namespace enum, from messages/setattr.py (class AttributeType). -/
inductive AttributeType where
  | user
  | system
deriving DecidableEq, Repr

/-- Dynamically-typed Python values that flow through the embedded code.
Floats are modelled as rationals.  Structural equality on this type models
Python equality for the cases the code exercises; in particular a string is
never equal to an enum member, which is exactly CPython behaviour for a
plain (non-str) Enum. -/
inductive PyValue where
  | pyNone
  | pyBool (b : Bool)
  | pyInt (n : Int)
  | pyFloat (q : Rat)
  | pyStr (s : String)
  | pyEnumAttr (a : AttributeType)
deriving DecidableEq, Repr

/-- Optuna parameter distributions as constructed by trial.py
(FloatDistribution / IntDistribution / CategoricalDistribution). -/
inductive Distribution where
  | floatDist (low high : Rat) (step : Option Rat) (log : Bool)
  | intDist (low high : Int) (step : Int) (log : Bool)
  | categoricalDist (choices : List PyValue)
deriving DecidableEq, Repr

/-- The message taxonomy, from src/optuna_distributed/messages/.
Each constructor corresponds to one concrete Message subclass.  The
setAttribute constructor stores its fields as raw PyValues because the
Python class stores whatever the (dynamically typed) constructor call
bound to them.  TrialProperty requests carry the string tag that
trial.py actually sends. -/
inductive Message where
  | heartbeat
  | response (trial_id : Nat) (data : PyValue)
  | suggest (trial_id : Nat) (name : String) (distribution : Distribution)
  | report (trial_id : Nat) (value : Rat) (step : Int)
  | shouldPrune (trial_id : Nat)
  | setAttribute (trial_id kind key value : PyValue)
  | trialProperty (trial_id : Nat) (property : String)
  | completed (trial_id : Nat) (value : PyValue)
  | pruned (trial_id : Nat)
  | failed (trial_id : Nat) (exc : PyExcType)
deriving DecidableEq, Repr

/-- The closing class attribute of each message class: true exactly for
CompletedMessage, PrunedMessage and FailedMessage. -/
def Message.closing : Message → Bool
  | .completed _ _ => true
  | .pruned _ => true
  | .failed _ _ => true
  | _ => false

/-- Whether a message is a ResponseMessage (isinstance check in trial.py). -/
def Message.isResponse : Message → Bool
  | .response _ _ => true
  | _ => false

/-! ## Python call binding

CPython binds call arguments to parameter names at call time: positional
arguments fill parameters left to right, then keyword arguments are
matched by name; a keyword that names an already-filled parameter raises
TypeError, as does a missing or unexpected argument.  The embedding below
is used wherever a claim hinges on a call site whose argument list does
not line up with the callee signature (trial.py calling
SetAttributeMessage, eventloop.py calling stop_optimization). -/

/-- Binds a Python call's arguments against a parameter-name list,
returning the bound assoc list or the TypeError message CPython would
produce. -/
def bindArgs {α : Type} (params : List String) (positional : List α)
    (keyword : List (String × α)) : Except String (List (String × α)) :=
  if positional.length > params.length then
    .error "too many positional arguments"
  else
    let bound := params.zip positional
    match bindKeywords params bound keyword with
    | .error e => .error e
    | .ok bound2 =>
      match params.find? (fun p => (bound2.find? (fun kv => kv.1 == p)).isNone) with
      | some missing => .error ("missing a required argument: " ++ missing)
      | none => .ok bound2
where
  /-- Folds keyword arguments into the positionally-bound assoc list. -/
  bindKeywords (params : List String) (bound : List (String × α)) :
      List (String × α) → Except String (List (String × α))
    | [] => .ok bound
    | (name, v) :: rest =>
      if (bound.find? (fun kv => kv.1 == name)).isSome then
        .error ("got multiple values for argument " ++ name)
      else if params.contains name then
        bindKeywords params (bound ++ [(name, v)]) rest
      else
        .error ("got an unexpected keyword argument " ++ name)

/-! ## The study and its storage

The study, sampler and pruner are external collaborators (optuna).  The
embedding keeps exactly the state the embedded code observes or mutates:
per-trial states, per-trial user/system attributes and reported
intermediate values.  Trial ids are issued monotonically by study.ask. -/

/-- Optuna trial states reachable through the embedded code paths. -/
inductive OTrialState where
  | running
  | waiting
  | complete
  | pruned
  | fail
deriving DecidableEq, Repr

/-- The study-plus-storage state observed by the embedded code. -/
structure Study where
  trials : List (Nat × OTrialState)
  userAttrs : List (PyValue × PyValue × PyValue)
  systemAttrs : List (PyValue × PyValue × PyValue)
  reported : List (Nat × Rat × Int)
  params : List (Nat × String × PyValue)
deriving DecidableEq, Repr

/-- A study with no trials. -/
def Study.empty : Study := ⟨[], [], [], [], []⟩

/-- Next trial id issued by the study (ids are issued monotonically). -/
def Study.nextId (s : Study) : Nat := s.trials.length

/-- One study.ask(): creates a new trial in running state. -/
def Study.ask (s : Study) : Study :=
  { s with trials := s.trials ++ [(s.nextId, .running)] }

/-- Repeated study.ask(), as in the create_futures list comprehensions. -/
def Study.askMany (s : Study) : Nat → Study
  | 0 => s
  | n + 1 => (s.ask).askMany n

/-- State of a trial in the store, if the trial exists. -/
def Study.stateOf (s : Study) (trial_id : Nat) : Option OTrialState :=
  (s.trials.find? (fun p => p.1 == trial_id)).map (·.2)

/-- Overwrites the state of one trial (storage.set_trial_state_values). -/
def Study.setState (s : Study) (trial_id : Nat) (st : OTrialState) : Study :=
  { s with trials := s.trials.map (fun p => if p.1 == trial_id then (p.1, st) else p) }

/-- Whether a trial is still live (running or waiting). -/
def OTrialState.isLive : OTrialState → Bool
  | .running => true
  | .waiting => true
  | _ => false

/-- The cleanup in eventloop.py lines 87-90: every trial that
get_trials(states=(RUNNING, WAITING)) returns is set to FAIL. -/
def Study.failRunningAndWaiting (s : Study) : Study :=
  { s with trials := s.trials.map (fun p => if p.2.isLive then (p.1, .fail) else p) }

/-- Embeds study.tell(trial, value_or_values, skip_if_finished=True) from
completed.py: a live trial becomes complete; a finished trial is skipped. -/
def Study.tellCompleted (s : Study) (trial_id : Nat) : Study :=
  match s.stateOf trial_id with
  | some st => if st.isLive then s.setState trial_id .complete else s
  | none => s

/-- Embeds study.tell(trial, state=TrialState.FAIL) from failed.py. -/
def Study.tellFailed (s : Study) (trial_id : Nat) : Study :=
  s.setState trial_id .fail

/-- Embeds study.tell(trial, state=TrialState.PRUNED) from pruned.py. -/
def Study.tellPruned (s : Study) (trial_id : Nat) : Study :=
  s.setState trial_id .pruned

/-- Embeds storage.set_trial_user_attr from setattr.py. -/
def Study.setUserAttr (s : Study) (trial_id key value : PyValue) : Study :=
  { s with userAttrs := s.userAttrs ++ [(trial_id, key, value)] }

/-- Embeds storage.set_trial_system_attr from setattr.py. -/
def Study.setSystemAttr (s : Study) (trial_id key value : PyValue) : Study :=
  { s with systemAttrs := s.systemAttrs ++ [(trial_id, key, value)] }

/-! ## Worker-side runtimes (managers/local.py and managers/distributed.py)

A worker runs the user objective and reports the outcome over its trial
connection.  The objective itself is external code; its outcome is an
oracle argument.  What the embedding captures is the translation of that
outcome into messages, performed by _trial_runtime (local backend) and by
the _wrapper closure built by _distributable (distributed backend). -/

/-- Outcome of one execution of the user objective: a returned value, or
a raised exception (TrialPruned and WorkerInterrupted included). -/
inductive ObjectiveOutcome where
  | returns (value : PyValue)
  | raises (exc : PyExcType)
deriving DecidableEq, Repr

/-- Task states published through dask shared variables, from
managers/distributed.py (class _TaskState). -/
inductive TaskState where
  | waiting
  | running
  | finished
deriving DecidableEq, Repr

/-- Observable effect of one worker entry-point execution. -/
structure WorkerRun where
  sent : List Message
  closed : Bool
deriving DecidableEq, Repr

/-- Embeds _trial_runtime from managers/local.py lines 113-131: run the
objective, translate the outcome into one message (Completed on return,
Pruned on TrialPruned, Failed on any other exception), and close the
connection in the finally block.  Exception clauses are matched in source
order: TrialPruned first, then the catch-all Exception clause. -/
def trialRuntime (trial_id : Nat) (outcome : ObjectiveOutcome) : WorkerRun :=
  match outcome with
  | .returns v => { sent := [.completed trial_id v], closed := true }
  | .raises .trialPruned => { sent := [.pruned trial_id], closed := true }
  | .raises e => { sent := [.failed trial_id e], closed := true }

/-- Observable effect of one execution of the _wrapper closure built by
_distributable in managers/distributed.py. -/
structure DistributableRun where
  objectiveRan : Bool
  supervisorSpawned : Bool
  sent : List Message
  closed : Bool
  finalTaskState : TaskState
deriving DecidableEq, Repr

/-- Embeds the _wrapper closure of _distributable, managers/distributed.py
lines 199-231.  The source reads the task-state variable and immediately
sets it to RUNNING without inspecting the previous value (the guard is
absent; the code carries the comment "FIXME: Re-introduce task
deduplication"), so the initial state argument is never consulted.  The
objective then runs; the outcome is translated through the exception
clauses in source order (TrialPruned, WorkerInterrupted, Exception), and
the finally block closes the connection and sets the state to FINISHED. -/
def distributableRun (with_supervisor : Bool) (initialState : TaskState)
    (trial_id : Nat) (outcome : ObjectiveOutcome) : DistributableRun :=
  { objectiveRan := true
    supervisorSpawned := with_supervisor
    sent :=
      match outcome with
      | .returns v => [.completed trial_id v]
      | .raises .trialPruned => [.pruned trial_id]
      | .raises .workerInterrupted => []
      | .raises e => [.failed trial_id e]
    closed := true
    finalTaskState := .finished }

/-- Modelled from the spec: the closing messages the specification
prescribes for the local worker entry point (section 4.4/7 and the
message table): Completed on return, Pruned on the prune signal, Failed
on any other raised exception. -/
def specClosingLocal (trial_id : Nat) (outcome : ObjectiveOutcome) : List Message :=
  match outcome with
  | .returns v => [.completed trial_id v]
  | .raises .trialPruned => [.pruned trial_id]
  | .raises e => [.failed trial_id e]

/-- Modelled from the spec: the closing messages the specification
prescribes for the distributed worker entry point (section 4.5 step 3):
as in the local case, except that an injected interrupt posts nothing. -/
def specClosingDistributed (trial_id : Nat) (outcome : ObjectiveOutcome) : List Message :=
  match outcome with
  | .returns v => [.completed trial_id v]
  | .raises .trialPruned => [.pruned trial_id]
  | .raises .workerInterrupted => []
  | .raises e => [.failed trial_id e]

/-! ## Local manager construction (managers/local.py) -/

/-- State of a LocalOptimizationManager.  The pool maps live trial ids to
the master end of their pipe (represented by the id itself); processes
records one daemon flag per spawned worker process.  workers_to_spawn is
an integer because get_message recomputes it as
min(n_jobs - len(pool), trials_remaining), which Python evaluates over
signed integers. -/
structure LMState where
  n_jobs : Nat
  workers_to_spawn : Int
  trials_remaining : Int
  pool : List Nat
  processes : List Bool
  responses : List (Nat × Message)
deriving DecidableEq, Repr

/-- Embeds LocalOptimizationManager.__init__, managers/local.py lines
44-53: clamp n_jobs into [1, cpu_count] (values at most 0 or above
cpu_count become cpu_count), pre-plan min(n_jobs, n_trials) workers and
leave the rest in the trials_remaining backlog. -/
def localManagerInit (n_trials : Nat) (n_jobs : Int) (cpu_count : Nat) : LMState :=
  let nj : Nat := if n_jobs ≤ 0 ∨ n_jobs > cpu_count then cpu_count else n_jobs.toNat
  let toSpawn : Nat := min nj n_trials
  { n_jobs := nj
    workers_to_spawn := (toSpawn : Int)
    trials_remaining := (n_trials : Int) - (toSpawn : Int)
    pool := []
    processes := []
    responses := [] }

/-- Embeds LocalOptimizationManager.create_futures, managers/local.py
lines 55-64: ask the study for workers_to_spawn trial ids, and for each
id open a pipe, spawn a daemonic worker process and record the master end
in the pool.  Python's range over a non-positive count is empty, which
Int.toNat mirrors. -/
def LMState.create_futures (study : Study) (s : LMState) : Study × LMState :=
  let n : Nat := s.workers_to_spawn.toNat
  let trial_ids := (List.range n).map (fun i => study.nextId + i)
  ( study.askMany n
  , { s with pool := s.pool ++ trial_ids
             processes := s.processes ++ List.replicate n true } )

/-- Embeds LocalOptimizationManager.after_message, managers/local.py
lines 90-94: when workers_to_spawn is positive, launch that many new
workers, deduct them from the backlog and reset the counter. -/
def LMState.after_message (study : Study) (s : LMState) : Study × LMState :=
  if s.workers_to_spawn > 0 then
    let (study2, s2) := s.create_futures study
    (study2, { s2 with trials_remaining := s2.trials_remaining - s2.workers_to_spawn
                       workers_to_spawn := 0 })
  else
    (study, s)

/-- Embeds LocalOptimizationManager.should_end_optimization, managers/
local.py lines 105-106. -/
def LMState.should_end_optimization (s : LMState) : Bool :=
  s.pool.isEmpty && s.trials_remaining == 0

/-! ## The named-queue IPC primitive (ipc/queue.py) -/

/-- State of an ipc.Queue handle.  sentLog records the pickled messages
handed to the underlying dask queue by put. -/
structure QueueState where
  publishing : String
  recieving : Option String
  timeout : Option Nat
  max_retries : Option Nat
  initialized : Bool
  publisherOpen : Bool
  subscriberOpen : Bool
  sentLog : List Message
deriving DecidableEq, Repr

/-- Embeds Queue.__init__, ipc/queue.py lines 32-49: setting both a fixed
timeout and max_retries is rejected with ValueError; both handles start
unopened (lazy initialization). -/
def Queue.make (publishing : String) (recieving : Option String)
    (timeout : Option Nat) (max_retries : Option Nat) : Except PyExcType QueueState :=
  if max_retries.isSome ∧ timeout.isSome then
    .error (.valueError "Exponentially growing timeout is used when max_retries is set.")
  else
    .ok { publishing := publishing
          recieving := recieving
          timeout := timeout
          max_retries := max_retries
          initialized := false
          publisherOpen := false
          subscriberOpen := false
          sentLog := [] }

/-- Embeds Queue._initialize, ipc/queue.py lines 51-58: on first use open
the publishing handle, and the subscribing handle only when a recieving
channel name was given. -/
def QueueState.lazyInit (q : QueueState) : QueueState :=
  if q.initialized then q
  else
    { q with publisherOpen := true
             subscriberOpen := q.recieving.isSome
             initialized := true }

/-- Outcome of one blocking wait on the underlying dask queue: either a
message arrives within the allotted timeout or the wait times out. -/
inductive GetAttempt where
  | msg (m : Message)
  | timesOut
deriving DecidableEq, Repr

/-- Embeds the retry loop of Queue.get for the max_retries mode, ipc/
queue.py lines 65-74.  env gives the outcome of the wait made on each
attempt; the returned trace lists, per wait performed, the attempt index
and the timeout passed to the dask queue (2 ^ attempt in this mode).  The
loop raises the pending asyncio.TimeoutError once the attempt counter
reaches max_retries.  fuel bounds the recursion; called with
fuel = max_retries - attempt it is never exhausted for max_retries ≥ 1
(with max_retries = 0 the source loops forever, which the fuel-exhausted
branch stands in for). -/
def queueGetRetries (env : Nat → GetAttempt) (max_retries : Nat) :
    Nat → Nat → Except PyExcType Message × List (Nat × Nat)
  | _, 0 => (.error .asyncioTimeoutError, [])
  | attempt, fuel + 1 =>
    let t := 2 ^ attempt
    match env attempt with
    | .msg m => (.ok m, [(attempt, t)])
    | .timesOut =>
      if attempt + 1 == max_retries then
        (.error .asyncioTimeoutError, [(attempt, t)])
      else
        let r := queueGetRetries env max_retries (attempt + 1) fuel
        (r.1, (attempt, t) :: r.2)

/-- Embeds Queue.get, ipc/queue.py lines 60-74: lazily set up the handles, raise
RuntimeError on a publish-only handle, then wait for a message — a single
wait with the fixed timeout when max_retries is unset, or the
exponential-backoff retry loop otherwise.  Returns the updated handle
state, the result, and the trace of (attempt, timeout) waits performed
(the fixed-timeout wait is recorded with its configured timeout, 0 when
blocking without one). -/
def QueueState.get (q : QueueState) (env : Nat → GetAttempt) :
    QueueState × Except PyExcType Message × List (Nat × Nat) :=
  let q1 := q.lazyInit
  if ¬q1.subscriberOpen then
    (q1, .error (.runtimeError "Trying to get message with publish-only connection."), [])
  else
    match q1.max_retries with
    | none =>
      match env 0 with
      | .msg m => (q1, .ok m, [(0, q1.timeout.getD 0)])
      | .timesOut => (q1, .error .asyncioTimeoutError, [(0, q1.timeout.getD 0)])
    | some m =>
      let r := queueGetRetries env m 0 m
      (q1, r.1, r.2)

/-- Embeds Queue.put, ipc/queue.py lines 76-79: lazily set up the handles, then
publish the pickled message on the publishing handle (the assert on the
publisher holds after initialization). -/
def QueueState.put (q : QueueState) (m : Message) : QueueState :=
  let q1 := q.lazyInit
  { q1 with sentLog := q1.sentLog ++ [m] }

/-! ## The remote trial proxy (trial.py)

A DistributedTrial owns one IPC connection.  The connection is modelled
by its two observable queues: the FIFO of messages the worker side will
receive on get, and the log of messages it has put. -/

/-- Worker-side view of a trial connection. -/
structure Conn where
  incoming : List Message
  sent : List Message
deriving DecidableEq, Repr

/-- connection.put: appends to the sent log. -/
def Conn.put (c : Conn) (m : Message) : Conn :=
  { c with sent := c.sent ++ [m] }

/-- Result of DistributedTrial._send_message_and_wait_response.  blocked
covers the case where no message ever arrives (connection.get never
returns); assertionFailed is the failed isinstance assert. -/
inductive WaitResult where
  | blocked (c : Conn)
  | assertionFailed (c : Conn)
  | got (data : PyValue) (c : Conn)
deriving DecidableEq, Repr

/-- Connection state carried by a WaitResult. -/
def WaitResult.conn : WaitResult → Conn
  | .blocked c => c
  | .assertionFailed c => c
  | .got _ c => c

/-- Whether the wait aborted on the isinstance assert. -/
def WaitResult.isAssertionFailed : WaitResult → Bool
  | .assertionFailed _ => true
  | _ => false

/-- Embeds DistributedTrial._send_message_and_wait_response, trial.py
lines 57-61: put the request, block on connection.get for exactly one
message, assert it is a ResponseMessage and return its data field. -/
def sendMessageAndWaitResponse (c : Conn) (m : Message) : WaitResult :=
  let c1 := c.put m
  match c1.incoming with
  | [] => .blocked c1
  | r :: rest =>
    match r with
    | .response _ data => .got data { c1 with incoming := rest }
    | _ => .assertionFailed { c1 with incoming := rest }

/-- Embeds DistributedTrial._suggest, trial.py lines 49-51. -/
def DistributedTrial.suggestRaw (c : Conn) (trial_id : Nat) (name : String)
    (distribution : Distribution) : WaitResult :=
  sendMessageAndWaitResponse c (.suggest trial_id name distribution)

/-- Embeds DistributedTrial.suggest_float, trial.py lines 63-95: builds a
FloatDistribution(low, high, step=step, log=log) and goes through
_suggest. -/
def DistributedTrial.suggest_float (c : Conn) (trial_id : Nat) (name : String)
    (low high : Rat) (step : Option Rat) (log : Bool) : WaitResult :=
  DistributedTrial.suggestRaw c trial_id name (.floatDist low high step log)

/-- Embeds DistributedTrial.suggest_int, trial.py lines 147-169: builds an
IntDistribution(low, high, log=log, step=step) and goes through _suggest. -/
def DistributedTrial.suggest_int (c : Conn) (trial_id : Nat) (name : String)
    (low high : Int) (step : Int) (log : Bool) : WaitResult :=
  DistributedTrial.suggestRaw c trial_id name (.intDist low high step log)

/-- Embeds DistributedTrial.suggest_categorical, trial.py lines 171-184. -/
def DistributedTrial.suggest_categorical (c : Conn) (trial_id : Nat) (name : String)
    (choices : List PyValue) : WaitResult :=
  DistributedTrial.suggestRaw c trial_id name (.categoricalDist choices)

/-- Embeds DistributedTrial.should_prune, trial.py lines 201-208. -/
def DistributedTrial.should_prune (c : Conn) (trial_id : Nat) : WaitResult :=
  sendMessageAndWaitResponse c (.shouldPrune trial_id)

/-- Embeds DistributedTrial._get_property, trial.py lines 53-55; the
property tag sent on the wire is the plain string the property accessors
pass ("params", "distributions", "user_attrs", "system_attrs",
"datetime_start", "number"). -/
def DistributedTrial.get_property (c : Conn) (trial_id : Nat) (property : String) :
    WaitResult :=
  sendMessageAndWaitResponse c (.trialProperty trial_id property)

/-- Embeds DistributedTrial.report, trial.py lines 186-199: fire and
forget, no wait on a response. -/
def DistributedTrial.report (c : Conn) (trial_id : Nat) (value : Rat) (step : Int) : Conn :=
  c.put (.report trial_id value step)

/-- Parameter names of SetAttributeMessage.__init__ (self excluded), from
messages/setattr.py line 35. -/
def setAttributeMessageParams : List String :=
  ["trial_id", "kind", "key", "value"]

/-- Reads one bound parameter out of a completed argument binding. -/
def boundArg (bound : List (String × PyValue)) (name : String) : PyValue :=
  ((bound.find? (fun kv => kv.1 == name)).map (·.2)).getD .pyNone

/-- A SetAttributeMessage constructor call: the arguments are bound
against the parameter list of messages/setattr.py; on success the message
stores whatever each parameter was bound to. -/
def SetAttributeMessage.new (positional : List PyValue)
    (keyword : List (String × PyValue)) : Except PyExcType Message :=
  match bindArgs setAttributeMessageParams positional keyword with
  | .error e => .error (.typeError e)
  | .ok bound =>
    .ok (.setAttribute (boundArg bound "trial_id") (boundArg bound "kind")
          (boundArg bound "key") (boundArg bound "value"))

/-- Embeds DistributedTrial.set_user_attr, trial.py lines 210-223: the
source constructs SetAttributeMessage(self.trial_id, key, value,
kind="user") — three positional arguments plus the kind keyword — and
puts the result on the connection. -/
def DistributedTrial.set_user_attr (c : Conn) (trial_id : Nat) (key : String)
    (value : PyValue) : Except PyExcType Conn :=
  match SetAttributeMessage.new [.pyInt trial_id, .pyStr key, value]
      [("kind", .pyStr "user")] with
  | .error e => .error e
  | .ok m => .ok (c.put m)

/-- Embeds DistributedTrial.set_system_attr, trial.py lines 225-238,
which constructs SetAttributeMessage(self.trial_id, key, value,
kind="system"). -/
def DistributedTrial.set_system_attr (c : Conn) (trial_id : Nat) (key : String)
    (value : PyValue) : Except PyExcType Conn :=
  match SetAttributeMessage.new [.pyInt trial_id, .pyStr key, value]
      [("kind", .pyStr "system")] with
  | .error e => .error e
  | .ok m => .ok (c.put m)

/-- Embeds SetAttributeMessage.process, messages/setattr.py lines 41-47:
the stored kind is compared with the AttributeType enum members; any
other value falls through to the assert False branch.  A Python string
never equals a plain-Enum member, which structural equality on PyValue
mirrors. -/
def SetAttributeMessage.process (kind trial_id key value : PyValue) (study : Study) :
    Except PyExcType Study :=
  if kind = .pyEnumAttr .user then
    .ok (study.setUserAttr trial_id key value)
  else if kind = .pyEnumAttr .system then
    .ok (study.setSystemAttr trial_id key value)
  else
    .error .assertionError

/-! ## The event loop (eventloop.py) and the manager interface

EventLoop.run drains the manager's message stream and dispatches each
message against the study.  The stream produced by get_message is
environment-driven (worker pipes, dask queues), so it enters the
embedding as an explicit list of yielded messages.  The manager operations
the loop invokes are collected in a ManagerOps record mirroring the
OptimizationManager interface of managers/base.py; each backend
instantiates it below with the methods its class actually defines.

Note on the source as it stands: managers/base.py declares
before_message and is_run_repeated abstract, and managers/local.py
overrides neither, so the local manager inherits the abstract
before_message whose body raises NotImplementedError.  The embedding
keeps the defined methods of each class and models the inherited
abstract before_message of the local backend as raising. -/

/-- Oracles for the external collaborators a dispatched message consults:
the sampler (suggest) and the pruner (should_prune). -/
structure MainEnv where
  sample : Nat → String → Distribution → PyValue
  pruner : Nat → Bool

/-- The manager operations invoked from the event loop, mirroring the
OptimizationManager interface.  stopParams records the parameter names of
the backend's stop_optimization method (self excluded): the loop's call
site passes no arguments, and CPython binds the call against this list.
An operation that can raise returns an Option PyExcType next to its
state. -/
structure ManagerOps (σ : Type) where
  createFutures : Study → σ → Study × σ
  beforeMessage : σ → σ × Option PyExcType
  afterMessage : Study → σ → Study × σ × Option PyExcType
  stopParams : List String
  stopEffect : σ → σ × Option PyExcType
  shouldEnd : σ → Bool
  registerTrialExit : Nat → σ → σ
  putResponse : Nat → Message → σ → σ × Option PyExcType

/-- Dispatches one message's process(study, manager) against the study,
following each concrete Message subclass in src/optuna_distributed/
messages/.  Returns the updated study and manager state together with the
exception the dispatch raised, if any; storage writes made before a raise
persist, exactly as in the stateful source. -/
def Message.processM {σ : Type} (ops : ManagerOps σ) (env : MainEnv) :
    Message → Study → σ → Study × σ × Option PyExcType
  | .heartbeat, study, s => (study, s, none)
  | .response _ _, study, s => (study, s, none)
  | .suggest trial_id name dist, study, s =>
    let value := env.sample trial_id name dist
    let study1 := { study with params := study.params ++ [(trial_id, name, value)] }
    let r := ops.putResponse trial_id (.response trial_id value) s
    (study1, r.1, r.2)
  | .report trial_id value step, study, s =>
    ({ study with reported := study.reported ++ [(trial_id, value, step)] }, s, none)
  | .shouldPrune trial_id, study, s =>
    let r := ops.putResponse trial_id (.response trial_id (.pyBool (env.pruner trial_id))) s
    (study, r.1, r.2)
  | .setAttribute trial_id kind key value, study, s =>
    match SetAttributeMessage.process kind trial_id key value study with
    | .ok study1 => (study1, s, none)
    | .error e => (study, s, some e)
  | .trialProperty _ _, study, s =>
    -- messages/property.py resolves the property through a dict keyed by
    -- the TrialProperty enum members, while trial.py sends the plain
    -- string tag: the lookup raises KeyError before any response is put.
    (study, s, some .keyError)
  | .completed trial_id _, study, s =>
    -- completed.py: study.tell(..., skip_if_finished=True), then the
    -- finally block registers the trial exit and logs.
    (study.tellCompleted trial_id, ops.registerTrialExit trial_id s, none)
  | .pruned trial_id, study, s =>
    (study.tellPruned trial_id, ops.registerTrialExit trial_id s, none)
  | .failed trial_id exc, study, s =>
    -- failed.py: tell FAIL, register the exit, then re-raise the carried
    -- exception into the event loop.
    (study.tellFailed trial_id, ops.registerTrialExit trial_id s, some exc)

/-- Embeds the except branch of EventLoop.run, eventloop.py lines 84-91:
call manager.stop_optimization() — with no arguments — then set every
trial still running or waiting to FAIL, and re-raise.  The call binding
happens first: if it fails (or stop_optimization itself raises), the
new exception propagates and the cleanup never runs. -/
def EventLoop.exceptBranch {σ : Type} (ops : ManagerOps σ) (e : PyExcType)
    (study : Study) (s : σ) : Study × σ × Option PyExcType :=
  match bindArgs ops.stopParams ([] : List PyValue) [] with
  | .error m => (study, s, some (.typeError m))
  | .ok _ =>
    match ops.stopEffect s with
    | (s1, some e1) => (study, s1, some e1)
    | (s1, none) => (study.failRunningAndWaiting, s1, some e)

/-- Embeds the try block of EventLoop.run, eventloop.py lines 79-91:
before_message, message.process, after_message; any exception from the
three falls into the except branch.  The catch tuple passed to run is
never consulted. -/
def EventLoop.dispatch {σ : Type} (ops : ManagerOps σ) (env : MainEnv) (msg : Message)
    (study : Study) (s : σ) : Study × σ × Option PyExcType :=
  match ops.beforeMessage s with
  | (s1, some e) => EventLoop.exceptBranch ops e study s1
  | (s1, none) =>
    match Message.processM ops env msg study s1 with
    | (study2, s2, some e) => EventLoop.exceptBranch ops e study2 s2
    | (study2, s2, none) =>
      match ops.afterMessage study2 s2 with
      | (study3, s3, some e) => EventLoop.exceptBranch ops e study3 s3
      | (study3, s3, none) => (study3, s3, none)

/-- Result of EventLoop.run over a finite message stream. -/
inductive RunResult (σ : Type) where
  | raised (e : PyExcType) (study : Study) (s : σ)
  | finishedRun (study : Study) (s : σ)
  | streamEnded (study : Study) (s : σ)
deriving DecidableEq, Repr

/-- Embeds the message loop of EventLoop.run, eventloop.py lines 78-97:
dispatch each yielded message; a raised exception ends the loop (after
the except branch ran); otherwise update the progress bar — timeout is
used nowhere beyond constructing that bar, and the source carries the
comment "TODO: Stop optimization on timeout here." — and exit once
should_end_optimization holds. -/
def EventLoop.runMessages {σ : Type} (ops : ManagerOps σ) (env : MainEnv)
    (timeout : Option Rat) (catchTypes : List PyExcType) :
    List Message → Study → σ → RunResult σ
  | [], study, s => .streamEnded study s
  | msg :: rest, study, s =>
    match EventLoop.dispatch ops env msg study s with
    | (st, s1, some e) => .raised e st s1
    | (st, s1, none) =>
      if ops.shouldEnd s1 then .finishedRun st s1
      else EventLoop.runMessages ops env timeout catchTypes rest st s1

/-- Embeds EventLoop.run, eventloop.py lines 49-97: record the start
time, build the progress bar, create the futures, then drain the stream.
Neither the timeout nor the catch tuple influences the loop. -/
def EventLoop.run {σ : Type} (ops : ManagerOps σ) (env : MainEnv)
    (timeout : Option Rat) (catchTypes : List PyExcType) (stream : List Message)
    (study : Study) (s : σ) : RunResult σ :=
  let p := ops.createFutures study s
  EventLoop.runMessages ops env timeout catchTypes stream p.1 p.2

/-! ## Backend instantiations of the manager interface -/

/-- Lifts LMState.after_message into the raising-operation shape. -/
def LMState.afterMessageOp (study : Study) (s : LMState) :
    Study × LMState × Option PyExcType :=
  let r := s.after_message study
  (r.1, r.2, none)

/-- The local backend's manager operations, from managers/local.py.
before_message is not overridden there, so the inherited abstract method
of managers/base.py raises NotImplementedError; stop_optimization is
declared with a required patience parameter (line 99); its OS-level kill
and join have no footprint in this state model; register_trial_exit is a
no-op (lines 108-110); get_connection(trial_id) indexes the pool dict and
the resulting Pipe put is recorded in responses. -/
def localOps : ManagerOps LMState :=
  { createFutures := LMState.create_futures
    beforeMessage := fun s => (s, some .notImplementedError)
    afterMessage := LMState.afterMessageOp
    stopParams := ["patience"]
    stopEffect := fun s => (s, none)
    shouldEnd := LMState.should_end_optimization
    registerTrialExit := fun _ s => s
    putResponse := fun trial_id m s =>
      if s.pool.contains trial_id then
        ({ s with responses := s.responses ++ [(trial_id, m)] }, none)
      else
        (s, some .keyError) }

/-- State of a DistributedOptimizationManager, managers/distributed.py.
stopWaitTimesOut is the environment's answer to whether
emit_stop_and_wait exceeds its patience (some task still reports RUNNING
past the deadline). -/
structure DMState where
  n_trials : Nat
  completed_trials : Nat
  privateChannels : List (Nat × String)
  futuresCount : Nat
  futuresCancelled : Bool
  is_distributed : Bool
  stopWaitTimesOut : Bool
  responses : List (Nat × Message)
deriving DecidableEq, Repr

/-- Embeds DistributedOptimizationManager.__init__, managers/
distributed.py lines 105-122. -/
def distributedManagerInit (n_trials : Nat) (is_distributed stopWaitTimesOut : Bool) :
    DMState :=
  { n_trials := n_trials
    completed_trials := 0
    privateChannels := []
    futuresCount := 0
    futuresCancelled := false
    is_distributed := is_distributed
    stopWaitTimesOut := stopWaitTimesOut
    responses := [] }

/-- Embeds DistributedOptimizationManager.create_futures, managers/
distributed.py lines 150-158: pre-ask the study for n_trials ids, assign
one fresh private channel per trial, and submit the wrapped distributable
for each as an independent task. -/
def DMState.create_futures (study : Study) (s : DMState) : Study × DMState :=
  let ids := (List.range s.n_trials).map (fun i => study.nextId + i)
  ( study.askMany s.n_trials
  , { s with privateChannels := s.privateChannels ++
               ids.map (fun i => (i, "chan" ++ toString i))
             futuresCount := s.n_trials } )

/-- The distributed backend's manager operations, from managers/
distributed.py: before_message and after_message are defined no-ops
(lines 160-161 and 177-178); stop_optimization takes no parameter beyond
self (line 183), cancels the futures and — on a true remote cluster —
waits for running tasks with emit_stop_and_wait(patience=10), which
raises TimeoutError when the wait exceeds the patience;
should_end_optimization compares completed trials with n_trials;
register_trial_exit increments the counter; get_connection looks the
trial up in the private-channel dict. -/
def distributedOps : ManagerOps DMState :=
  { createFutures := DMState.create_futures
    beforeMessage := fun s => (s, none)
    afterMessage := fun study s => (study, s, none)
    stopParams := []
    stopEffect := fun s =>
      let s1 := { s with futuresCancelled := true }
      if s1.is_distributed ∧ s1.stopWaitTimesOut then
        (s1, some (.timeoutError "Timed out while trying to interrupt running tasks."))
      else
        (s1, none)
    shouldEnd := fun s => s.completed_trials == s.n_trials
    registerTrialExit := fun _ s => { s with completed_trials := s.completed_trials + 1 }
    putResponse := fun trial_id m s =>
      if (s.privateChannels.find? (fun p => p.1 == trial_id)).isSome then
        ({ s with responses := s.responses ++ [(trial_id, m)] }, none)
      else
        (s, some .keyError) }

/-! ## Shared lemmas -/

/-- A null environment for scenarios whose messages consult neither the
sampler nor the pruner. -/
def mainEnvNull : MainEnv :=
  { sample := fun _ _ _ => .pyNone
    pruner := fun _ => false }

/-- Repeated study.ask issues exactly n new trials. -/
theorem Study.askMany_trials_length (s : Study) (n : Nat) :
    (s.askMany n).trials.length = s.trials.length + n := by
  induction n generalizing s with
  | zero => rfl
  | succ k ih =>
    have h := ih s.ask
    have h2 : s.ask.trials.length = s.trials.length + 1 := by simp [Study.ask]
    simp only [Study.askMany]
    rw [h, h2]
    omega

/-! ## Claims -/

/-- Claim C3: the wrapped distributable is claimed to return immediately,
without running the objective or putting a message, whenever the
task-state variable is no longer Waiting.  The source has no such guard
(the deduplication check was removed; the code carries a FIXME to
re-introduce it): the wrapper's behaviour does not depend on the initial
task state at all, and on a task whose state is already Finished the
objective runs again and a second closing message is put. -/
theorem claim_c3_no_reexecution_guard :
    (∀ (ws : Bool) (st1 st2 : TaskState) (trial_id : Nat) (outcome : ObjectiveOutcome),
        distributableRun ws st1 trial_id outcome = distributableRun ws st2 trial_id outcome)
    ∧ (distributableRun true .finished 7 (.returns (.pyFloat 0))).objectiveRan = true
    ∧ (distributableRun true .finished 7 (.returns (.pyFloat 0))).sent
        = [.completed 7 (.pyFloat 0)] :=
  ⟨fun _ _ _ _ _ => rfl, rfl, rfl⟩

/-- Claim C5: set_user_attr / set_system_attr are claimed to put exactly
one SetAttribute message whose processing sets the attribute in the
matching namespace.  In the source, trial.py calls
SetAttributeMessage(self.trial_id, key, value, kind=...) while
setattr.py declares the parameters (trial_id, kind, key, value): binding
the call raises TypeError (kind is filled twice), so no message is ever
put; moreover SetAttributeMessage.process compares the stored kind
against the AttributeType enum members, so even a message carrying the
string "user" would hit the assert False branch instead of setting the
attribute. -/
theorem claim_c5_set_attribute_call_mismatch :
    (∀ (c : Conn) (trial_id : Nat) (key : String) (value : PyValue),
        DistributedTrial.set_user_attr c trial_id key value
          = .error (.typeError "got multiple values for argument kind")
        ∧ DistributedTrial.set_system_attr c trial_id key value
          = .error (.typeError "got multiple values for argument kind"))
    ∧ (∀ (trial_id key value : PyValue) (study : Study),
        SetAttributeMessage.process (.pyStr "user") trial_id key value study
          = .error .assertionError)
    ∧ (∀ (trial_id key value : PyValue) (study : Study),
        SetAttributeMessage.process (.pyStr "system") trial_id key value study
          = .error .assertionError) :=
  ⟨fun _ _ _ _ => ⟨rfl, rfl⟩, fun _ _ _ _ => rfl, fun _ _ _ _ => rfl⟩

/-- Claim C6: each worker entry point puts exactly one closing message
and then closes the connection — Completed with the returned value on
normal return, Pruned on the prune signal, Failed on any other
exception — except that the distributed wrapper posts nothing when the
injected interrupt is raised.  Both entry points agree with the
spec-modelled message lists, every message posted is closing, and the
count is one (zero only for the distributed interrupt case). -/
theorem claim_c6_exactly_one_closing_message :
    ∀ (trial_id : Nat) (outcome : ObjectiveOutcome) (ws : Bool) (st : TaskState),
      (trialRuntime trial_id outcome).sent = specClosingLocal trial_id outcome
      ∧ (trialRuntime trial_id outcome).closed = true
      ∧ (trialRuntime trial_id outcome).sent.all Message.closing = true
      ∧ (specClosingLocal trial_id outcome).length = 1
      ∧ (distributableRun ws st trial_id outcome).sent
          = specClosingDistributed trial_id outcome
      ∧ (distributableRun ws st trial_id outcome).closed = true
      ∧ (distributableRun ws st trial_id outcome).sent.all Message.closing = true
      ∧ (specClosingDistributed trial_id outcome).length
          = (if outcome = .raises .workerInterrupted then 0 else 1) := by
  intro trial_id outcome ws st
  rcases outcome with v | e
  · simp [trialRuntime, specClosingLocal, distributableRun, specClosingDistributed,
      Message.closing]
  · cases e <;>
      simp [trialRuntime, specClosingLocal, distributableRun, specClosingDistributed,
        Message.closing]

/-- Claim C7: a local manager constructed with n_jobs at most 0 or above
cpu_count behaves as one constructed with n_jobs = cpu_count, and at
startup it pre-issues exactly min(n_jobs, n_trials) trial ids, spawns
that many daemonic worker processes, and leaves
n_trials - min(n_jobs, n_trials) trials in the backlog counter. -/
theorem claim_c7_local_manager_startup (n_jobs : Int) (cpu : Nat)
    (h : n_jobs ≤ 0 ∨ n_jobs > (cpu : Int)) :
    (∀ n_trials : Nat, localManagerInit n_trials n_jobs cpu = localManagerInit n_trials cpu cpu)
    ∧ ∀ (nt : Nat) (nj : Int) (c : Nat) (study : Study),
        ((localManagerInit nt nj c).create_futures study).1.trials.length
            = study.trials.length + min (localManagerInit nt nj c).n_jobs nt
        ∧ ((localManagerInit nt nj c).create_futures study).2.pool.length
            = min (localManagerInit nt nj c).n_jobs nt
        ∧ ((localManagerInit nt nj c).create_futures study).2.processes
            = List.replicate (min (localManagerInit nt nj c).n_jobs nt) true
        ∧ (localManagerInit nt nj c).trials_remaining
            = (nt : Int) - ((min (localManagerInit nt nj c).n_jobs nt : Nat) : Int) := by
  constructor
  · intro n_trials
    have hnj : (if n_jobs ≤ 0 ∨ n_jobs > (cpu : Int) then cpu else n_jobs.toNat)
        = (if (cpu : Int) ≤ 0 ∨ (cpu : Int) > (cpu : Int) then cpu else (cpu : Int).toNat) := by
      split_ifs <;> omega
    simp only [localManagerInit, hnj]
  · intro nt nj c study
    have hspawn : (localManagerInit nt nj c).workers_to_spawn.toNat
        = min (localManagerInit nt nj c).n_jobs nt := rfl
    have hpool : (localManagerInit nt nj c).pool = [] := rfl
    have hproc : (localManagerInit nt nj c).processes = [] := rfl
    refine ⟨?_, ?_, ?_, rfl⟩
    · simp [LMState.create_futures, Study.askMany_trials_length, hspawn]
    · simp [LMState.create_futures, hpool, hspawn]
    · simp [LMState.create_futures, hproc, hspawn]

/-- Witness for claim C7 at n_trials = 5, n_jobs = -1, cpu_count = 4:
the clamp makes it behave as n_jobs = 4 and startup spawns 4 workers. -/
theorem claim_c7_local_manager_startup_witness :
    localManagerInit 5 (-1) 4 = localManagerInit 5 4 4
    ∧ ((localManagerInit 5 (-1) 4).create_futures Study.empty).2.pool.length = 4 := by
  have h := claim_c7_local_manager_startup (-1) 4 (Or.inl (by decide))
  exact ⟨h.1 5, (h.2 5 (-1) 4 Study.empty).2.1.trans (by decide)⟩

/-- The message loop's behaviour does not depend on the catch tuple: the
source binds it in run's signature and never reads it. -/
theorem EventLoop.runMessages_catch_irrelevant {σ : Type} (ops : ManagerOps σ)
    (env : MainEnv) (t : Option Rat) (c1 c2 : List PyExcType) :
    ∀ (stream : List Message) (study : Study) (s : σ),
      EventLoop.runMessages ops env t c1 stream study s
        = EventLoop.runMessages ops env t c2 stream study s := by
  intro stream
  induction stream with
  | nil => intro study s; rfl
  | cons msg rest ih =>
    intro study s
    simp only [EventLoop.runMessages]
    rcases h : EventLoop.dispatch ops env msg study s with ⟨st, s1, e⟩
    rcases e with _ | e
    · simp [ih]
    · simp

/-- The message loop's behaviour does not depend on the timeout argument
either: run hands it to the progress bar and the loop never compares
elapsed time against it (the source carries the TODO for this). -/
theorem EventLoop.runMessages_timeout_irrelevant {σ : Type} (ops : ManagerOps σ)
    (env : MainEnv) (t1 t2 : Option Rat) (cT : List PyExcType) :
    ∀ (stream : List Message) (study : Study) (s : σ),
      EventLoop.runMessages ops env t1 cT stream study s
        = EventLoop.runMessages ops env t2 cT stream study s := by
  intro stream
  induction stream with
  | nil => intro study s; rfl
  | cons msg rest ih =>
    intro study s
    simp only [EventLoop.runMessages]
    rcases h : EventLoop.dispatch ops env msg study s with ⟨st, s1, e⟩
    rcases e with _ | e
    · simp [ih]
    · simp

/-- Claim C1: run is claimed to swallow dispatch exceptions whose type is
in the catch tuple and keep pulling messages.  In the source the catch
argument is dead: the loop's result is identical for any two catch
tuples, and in the concrete scenario — five distributed trials, the first
worker's objective raising ValueError, catch containing ValueError — run
stops the manager and re-raises the ValueError after the first
FailedMessage instead of completing normally. -/
theorem claim_c1_catch_tuple_ignored :
    (∀ (σ : Type) (ops : ManagerOps σ) (env : MainEnv) (t : Option Rat)
        (c1 c2 : List PyExcType) (stream : List Message) (study : Study) (s : σ),
        EventLoop.run ops env t c1 stream study s = EventLoop.run ops env t c2 stream study s)
    ∧ EventLoop.run distributedOps mainEnvNull none [.valueError "boom"]
        [.failed 0 (.valueError "boom")] Study.empty (distributedManagerInit 5 true false)
      = .raised (.valueError "boom")
          ⟨[(0, .fail), (1, .fail), (2, .fail), (3, .fail), (4, .fail)], [], [], [], []⟩
          { n_trials := 5, completed_trials := 1,
            privateChannels := [(0, "chan0"), (1, "chan1"), (2, "chan2"),
              (3, "chan3"), (4, "chan4")],
            futuresCount := 5, futuresCancelled := true, is_distributed := true,
            stopWaitTimesOut := false, responses := [] } := by
  constructor
  · intro σ ops env t c1 c2 stream study s
    exact EventLoop.runMessages_catch_irrelevant ops env t c1 c2 stream _ _
  · rfl

/-- Claim C2: run is claimed to stop the manager and exit once elapsed
wall-clock time exceeds the timeout.  In the source the timeout is dead
beyond the progress bar: the loop's result is identical for any two
timeout values, and in the concrete scenario — one trial whose worker
keeps the loop waiting through heartbeats, timeout = 1 — run keeps
pulling until the Completed message arrives and the trial ends in
complete (not fail) state. -/
theorem claim_c2_timeout_not_enforced :
    (∀ (σ : Type) (ops : ManagerOps σ) (env : MainEnv) (t1 t2 : Option Rat)
        (cT : List PyExcType) (stream : List Message) (study : Study) (s : σ),
        EventLoop.run ops env t1 cT stream study s = EventLoop.run ops env t2 cT stream study s)
    ∧ EventLoop.run distributedOps mainEnvNull (some 1) []
        [.heartbeat, .heartbeat, .heartbeat, .completed 0 (.pyFloat 1)]
        Study.empty (distributedManagerInit 1 true false)
      = .finishedRun ⟨[(0, .complete)], [], [], [], []⟩
          { n_trials := 1, completed_trials := 1, privateChannels := [(0, "chan0")],
            futuresCount := 1, futuresCancelled := false, is_distributed := true,
            stopWaitTimesOut := false, responses := [] } := by
  constructor
  · intro σ ops env t1 t2 cT stream study s
    exact EventLoop.runMessages_timeout_irrelevant ops env t1 t2 cT stream _ _
  · rfl

/-- Claim C4: on an uncaught dispatch exception the loop is claimed to
stop the manager with the interrupt patience, mark running and waiting
trials failed, and re-raise the original exception.  With the local
backend the source cannot do this: eventloop.py calls
manager.stop_optimization() with no argument while
LocalOptimizationManager.stop_optimization requires patience, so binding
the call raises TypeError — the original exception is replaced, and the
store cleanup never runs (the second conjunct shows both pre-created
trials still running after run raised). -/
theorem claim_c4_stop_called_without_patience :
    (∀ (msg : Message) (rest : List Message) (env : MainEnv) (t : Option Rat)
        (cT : List PyExcType) (study : Study) (s : LMState),
        EventLoop.runMessages localOps env t cT (msg :: rest) study s
          = .raised (.typeError "missing a required argument: patience") study s)
    ∧ EventLoop.run localOps mainEnvNull none [] [.failed 0 (.valueError "boom")]
        Study.empty (localManagerInit 2 2 4)
      = .raised (.typeError "missing a required argument: patience")
          ⟨[(0, .running), (1, .running)], [], [], [], []⟩
          { n_jobs := 2, workers_to_spawn := 2, trials_remaining := 0,
            pool := [0, 1], processes := [true, true], responses := [] } := by
  exact ⟨fun _ _ _ _ _ _ _ => rfl, rfl⟩

/-- When every wait times out, the retry loop performs exactly the
attempts attempt, attempt+1, ..., max_retries-1 — each waiting
2 ^ k seconds — and then propagates the timeout. -/
theorem queueGetRetries_all_timeouts (env : Nat → GetAttempt)
    (henv : ∀ k, env k = .timesOut) (m : Nat) :
    ∀ (fuel attempt : Nat), attempt + fuel = m → 1 ≤ fuel →
      queueGetRetries env m attempt fuel
        = (.error .asyncioTimeoutError, (List.range' attempt fuel).map (fun k => (k, 2 ^ k))) := by
  intro fuel
  induction fuel with
  | zero => intro attempt _ h1; omega
  | succ f ih =>
    intro attempt hsum _
    simp only [queueGetRetries, henv attempt]
    rcases Nat.eq_zero_or_pos f with hf | hf
    · subst hf
      have : attempt + 1 == m := by simp; omega
      simp [this, List.range'_succ]
    · have hne : (attempt + 1 == m) = false := by simp; omega
      have := ih (attempt + 1) (by omega) (by omega)
      simp [hne, this, List.range'_succ]

/-- Every wait the retry loop performs on attempt k uses the timeout
2 ^ k, whatever the environment does. -/
theorem queueGetRetries_waits_are_powers (env : Nat → GetAttempt) (m : Nat) :
    ∀ (fuel attempt : Nat),
      ((queueGetRetries env m attempt fuel).2.all (fun kt => kt.2 == 2 ^ kt.1)) = true := by
  intro fuel
  induction fuel with
  | zero => intro attempt; rfl
  | succ f ih =>
    intro attempt
    simp only [queueGetRetries]
    rcases env attempt with msg | _
    · simp
    · rcases h : (attempt + 1 == m) with _ | _
      · have := ih (attempt + 1)
        simp [h, this]
      · simp [h]

/-- Claim C8: constructing the named-queue primitive with both a fixed
timeout and a retry count raises the configuration ValueError; in retry
mode attempt k (from 0) waits 2 ^ k seconds, and when every one of the
max_retries attempts times out the timeout exception propagates out of
get after exactly that many waits. -/
theorem claim_c8_queue_backoff_retries (p r : String) (m : Nat) (q : QueueState)
    (env : Nat → GetAttempt)
    (hq : Queue.make p (some r) none (some m) = .ok q)
    (hm : 1 ≤ m)
    (henv : ∀ k, env k = .timesOut) :
    (∀ (p2 : String) (r2 : Option String) (t2 m2 : Nat),
        Queue.make p2 r2 (some t2) (some m2)
          = .error (.valueError
              "Exponentially growing timeout is used when max_retries is set."))
    ∧ (∀ (env2 : Nat → GetAttempt) (mr fuel attempt : Nat),
        ((queueGetRetries env2 mr attempt fuel).2.all (fun kt => kt.2 == 2 ^ kt.1)) = true)
    ∧ (q.get env).2.1 = .error .asyncioTimeoutError
    ∧ (q.get env).2.2 = (List.range m).map (fun k => (k, 2 ^ k)) := by
  have hqval : q =
      { publishing := p, recieving := some r, timeout := none,
        max_retries := some m, initialized := false, publisherOpen := false,
        subscriberOpen := false, sentLog := [] } := by
    simp only [Queue.make] at hq
    split at hq
    · cases hq
    · cases hq; rfl
  have hrun := queueGetRetries_all_timeouts env henv m m 0 (by omega) (by omega)
  refine ⟨fun p2 r2 t2 m2 => rfl, fun env2 mr fuel attempt =>
    queueGetRetries_waits_are_powers env2 mr fuel attempt, ?_, ?_⟩
  · subst hqval
    simp [QueueState.get, QueueState.lazyInit, hrun]
  · subst hqval
    simp [QueueState.get, QueueState.lazyInit, hrun, List.range_eq_range']

/-- Witness for claim C8 at max_retries = 2 and an environment that
always times out: get raises after two waits of 1 and 2 seconds. -/
theorem claim_c8_queue_backoff_retries_witness :
    ({ publishing := "foo", recieving := some "bar", timeout := none,
       max_retries := some 2, initialized := false, publisherOpen := false,
       subscriberOpen := false, sentLog := [] : QueueState }.get
         (fun _ => .timesOut)).2.1 = .error .asyncioTimeoutError
    ∧ ({ publishing := "foo", recieving := some "bar", timeout := none,
         max_retries := some 2, initialized := false, publisherOpen := false,
         subscriberOpen := false, sentLog := [] : QueueState }.get
           (fun _ => .timesOut)).2.2 = [(0, 1), (1, 2)] := by
  have h := claim_c8_queue_backoff_retries "foo" "bar" 2
    { publishing := "foo", recieving := some "bar", timeout := none,
      max_retries := some 2, initialized := false, publisherOpen := false,
      subscriberOpen := false, sentLog := [] }
    (fun _ => .timesOut) rfl (by decide) (fun _ => rfl)
  exact ⟨h.2.2.1, h.2.2.2.trans (by decide)⟩

/-- Claim C9: a queue constructed without a recieving channel name is
publish-only: get always raises RuntimeError whatever the timeout/retry
configuration and environment, the error comes after lazy initialization
(the publishing handle ends up open, the subscribing one does not), and
put still succeeds and publishes the message. -/
theorem claim_c9_publish_only_get_raises (p : String) (t r : Option Nat)
    (q : QueueState) (env : Nat → GetAttempt) (m : Message)
    (hq : Queue.make p none t r = .ok q) :
    (q.get env).2.1
        = .error (.runtimeError "Trying to get message with publish-only connection.")
    ∧ (q.get env).1.initialized = true
    ∧ (q.get env).1.publisherOpen = true
    ∧ (q.get env).1.subscriberOpen = false
    ∧ (q.put m).sentLog = [m]
    ∧ (q.put m).publisherOpen = true := by
  have hqval : q =
      { publishing := p, recieving := none, timeout := t,
        max_retries := r, initialized := false, publisherOpen := false,
        subscriberOpen := false, sentLog := [] } := by
    simp only [Queue.make] at hq
    split at hq
    · cases hq
    · cases hq; rfl
  subst hqval
  refine ⟨?_, ?_, ?_, ?_, ?_, ?_⟩ <;>
    simp [QueueState.get, QueueState.lazyInit, QueueState.put]

/-- Witness for claim C9: the queue built as Queue("foo") rejects get
with RuntimeError but put succeeds. -/
theorem claim_c9_publish_only_get_raises_witness :
    ({ publishing := "foo", recieving := none, timeout := none,
       max_retries := none, initialized := false, publisherOpen := false,
       subscriberOpen := false, sentLog := [] : QueueState }.get
         (fun _ => .timesOut)).2.1
      = .error (.runtimeError "Trying to get message with publish-only connection.")
    ∧ ({ publishing := "foo", recieving := none, timeout := none,
         max_retries := none, initialized := false, publisherOpen := false,
         subscriberOpen := false, sentLog := [] : QueueState }.put .heartbeat).sentLog
      = [.heartbeat] := by
  have h := claim_c9_publish_only_get_raises "foo" none none
    { publishing := "foo", recieving := none, timeout := none,
      max_retries := none, initialized := false, publisherOpen := false,
      subscriberOpen := false, sentLog := [] }
    (fun _ => .timesOut) .heartbeat rfl
  exact ⟨h.1, h.2.2.2.2.1⟩

/-- Claim C10: every value-returning proxy operation puts its request and
then blocks for exactly one message, asserts it is a Response and returns
its data; a non-Response first message trips the assert, and when only
Response messages arrive on the channel the assert branch is
unreachable.  The suggest methods, should_prune and the property
accessors all route through this one helper. -/
theorem claim_c10_request_response_wait :
    ∀ (c : Conn) (m : Message),
      (sendMessageAndWaitResponse c m).conn.sent = c.sent ++ [m]
      ∧ (c.incoming = [] →
          sendMessageAndWaitResponse c m = .blocked ⟨[], c.sent ++ [m]⟩)
      ∧ (∀ (i : Nat) (d : PyValue) (rest : List Message),
          c.incoming = .response i d :: rest →
            sendMessageAndWaitResponse c m = .got d ⟨rest, c.sent ++ [m]⟩)
      ∧ (∀ (r : Message) (rest : List Message),
          c.incoming = r :: rest → r.isResponse = false →
            sendMessageAndWaitResponse c m = .assertionFailed ⟨rest, c.sent ++ [m]⟩)
      ∧ ((∀ x ∈ c.incoming, x.isResponse = true) →
          (sendMessageAndWaitResponse c m).isAssertionFailed = false)
      ∧ (∀ (trial_id : Nat) (name : String) (low high : Rat) (step : Option Rat)
            (log : Bool),
          DistributedTrial.suggest_float c trial_id name low high step log
            = sendMessageAndWaitResponse c (.suggest trial_id name (.floatDist low high step log)))
      ∧ (∀ (trial_id : Nat) (name : String) (low high step : Int) (log : Bool),
          DistributedTrial.suggest_int c trial_id name low high step log
            = sendMessageAndWaitResponse c (.suggest trial_id name (.intDist low high step log)))
      ∧ (∀ (trial_id : Nat) (name : String) (choices : List PyValue),
          DistributedTrial.suggest_categorical c trial_id name choices
            = sendMessageAndWaitResponse c (.suggest trial_id name (.categoricalDist choices)))
      ∧ (∀ trial_id : Nat,
          DistributedTrial.should_prune c trial_id
            = sendMessageAndWaitResponse c (.shouldPrune trial_id))
      ∧ (∀ (trial_id : Nat) (property : String),
          DistributedTrial.get_property c trial_id property
            = sendMessageAndWaitResponse c (.trialProperty trial_id property)) := by
  intro c m
  refine ⟨?_, ?_, ?_, ?_, ?_, fun _ _ _ _ _ _ => rfl, fun _ _ _ _ _ _ => rfl,
    fun _ _ _ => rfl, fun _ => rfl, fun _ _ => rfl⟩
  · rcases hc : c.incoming with _ | ⟨r, rest⟩
    · simp [sendMessageAndWaitResponse, Conn.put, hc, WaitResult.conn]
    · rcases r <;> simp [sendMessageAndWaitResponse, Conn.put, hc, WaitResult.conn]
  · intro hc
    simp [sendMessageAndWaitResponse, Conn.put, hc]
  · intro i d rest hc
    simp [sendMessageAndWaitResponse, Conn.put, hc]
  · intro r rest hc hr
    rcases r <;> simp_all [sendMessageAndWaitResponse, Conn.put, Message.isResponse]
  · intro hall
    rcases hc : c.incoming with _ | ⟨r, rest⟩
    · simp [sendMessageAndWaitResponse, Conn.put, hc, WaitResult.isAssertionFailed]
    · have hr := hall r (by rw [hc]; exact List.mem_cons_self r rest)
      rcases r <;> simp_all [sendMessageAndWaitResponse, Conn.put, Message.isResponse,
        WaitResult.isAssertionFailed]

/-- Witness for claim C10 on a channel holding one Response: the request
is logged, its data comes back, and the assert branch is not taken. -/
theorem claim_c10_request_response_wait_witness :
    sendMessageAndWaitResponse ⟨[.response 0 (.pyInt 7)], []⟩ (.shouldPrune 0)
      = .got (.pyInt 7) ⟨[], [.shouldPrune 0]⟩
    ∧ (sendMessageAndWaitResponse ⟨[.response 0 (.pyInt 7)], []⟩
        (.shouldPrune 0)).isAssertionFailed = false := by
  have h := claim_c10_request_response_wait ⟨[.response 0 (.pyInt 7)], []⟩ (.shouldPrune 0)
  exact ⟨h.2.2.1 0 (.pyInt 7) [] rfl, h.2.2.2.2.1 (by decide)⟩

end OptunaDistributed
